import Mathlib

/-!
Verification of the credit accounting and request-gating engine of
`openwebui-token-tracking`.

This file gives a shallow embedding of the relevant parts of the source:
`tracking.py` (`TokenTracker`), `sponsored.py` (sponsored-allowance CRUD) and
`pipes/base_tracked_pipe.py` (`BaseTrackedPipe._check_limits`), together with
theorems settling the frozen claims about them.

Modelling conventions:
- The relational store is a `DBState` value holding the rows of each table as
  lists; SQL queries become list filters/maps/sums translated from the
  SQLAlchemy expressions in the source.
- Python floats are modelled as exact rationals (`Rat`); Python `int(x)`
  truncation toward zero is `trunc_rat`.
- Python exceptions become `Except Err`; each `Err` constructor records which
  Python exception class the source raises on that path.
- Timestamps are modelled at day granularity (`Date`), matching the
  `db.func.date(...)` casts that the source applies before every comparison.
-/

/-- Calendar date (year, month, day); the source compares dates after casting
with SQL `date(...)`, so day granularity suffices. -/
structure Date where
  year : Int
  month : Int
  day : Int
deriving DecidableEq

/-- Boolean date comparison `a <= b`, lexicographic on (year, month, day). -/
def Date.ble (a b : Date) : Bool :=
  decide (a.year < b.year ∨ (a.year = b.year ∧
    (a.month < b.month ∨ (a.month = b.month ∧ a.day ≤ b.day))))

/-- Number of days in a month, as computed by Python's
`calendar.monthrange(year, month)[1]` (Gregorian rules). -/
def days_in_month (year month : Int) : Int :=
  if month = 2 then
    if year % 4 = 0 ∧ (year % 100 ≠ 0 ∨ year % 400 = 0) then 29 else 28
  else if month = 4 ∨ month = 6 ∨ month = 9 ∨ month = 11 then 30
  else 31

/-- Modelled from the spec: the `ModelPricing` table and `ModelPricingSchema`
(`db/model_pricing.py` and `models.py` are not present in the sources); a
pricing row holds the rate pairs `input_cost_credits / per_input_tokens` and
`output_cost_credits / per_output_tokens` with cost linear in tokens. -/
structure ModelPricing where
  id : String
  provider : String
  name : String
  input_cost_credits : Int
  per_input_tokens : Int
  output_cost_credits : Int
  per_output_tokens : Int
deriving DecidableEq

/-- Modelled from the spec: the `TokenUsageLog` append-only fact table
(`db/token_usage.py` is not present in the sources): provider, model id,
user id, token counts, optional sponsored allowance id, log timestamp. -/
structure TokenUsageLog where
  provider : String
  user_id : String
  model_id : String
  prompt_tokens : Int
  response_tokens : Int
  sponsored_allowance_id : Option String
  log_date : Date
deriving DecidableEq

/-- Modelled from the spec: the `CreditGroup` table (`db/credit_group.py` is
not present in the sources): id, unique name, monthly credit allowance. -/
structure CreditGroup where
  id : String
  name : String
  max_credit : Int
deriving DecidableEq

/-- Sponsored allowance row, translated from `db/sponsored.py`
(`SponsoredAllowance`): id, creation date, name, sponsor id, mandatory total
credit limit, nullable monthly credit limit, plus the set of eligible base
model ids from the `SponsoredAllowanceBaseModels` join table. -/
structure SponsoredAllowance where
  id : String
  creation_date : Date
  name : String
  sponsor_id : String
  total_credit_limit : Int
  monthly_credit_limit : Option Int
  base_models : List String
deriving DecidableEq

/-- The relational store as seen by `TokenTracker`: one list of rows per
table. `settings` models the `BaseSetting` key/value table
(`db/settings.py` is not present in the sources; modelled from the spec with
the value already parsed by `int(...)` as the source does). `credit_group_users`
holds `(credit_group_id, user_id)` membership rows. -/
structure DBState where
  models : List ModelPricing
  usage : List TokenUsageLog
  credit_groups : List CreditGroup
  credit_group_users : List (String × String)
  settings : List (String × Int)
  sponsored_allowances : List SponsoredAllowance
deriving DecidableEq

/-- Python exception classes raised by the embedded code paths. -/
inductive Err where
  /-- RuntimeError in `max_credits` when both a name and an id are given. -/
  | configuration_error
  /-- RuntimeError in `is_paid` when the model id does not match exactly one
  pricing row. -/
  | ambiguous_model
  /-- ValueError in `get_sponsored_allowance` when neither name nor id is
  given. -/
  | value_error
  /-- KeyError in `get_sponsored_allowance` when no allowance matches. -/
  | key_error
  /-- TypeError when Python would subtract from `None` or unpack `None`. -/
  | type_error
  /-- MultipleResultsFound from SQLAlchemy `Query.scalar()` on several rows. -/
  | multiple_results
  /-- AttributeError when a pricing lookup in `_calc_credits_from_tokens`
  returns `None`, or the base setting row is missing. -/
  | attribute_error
  /-- ZeroDivisionError when a pricing row has a zero `per_*_tokens` field. -/
  | zero_division
deriving DecidableEq

/-- Python `int(x)` on a float: truncation toward zero, here on an exact
rational. -/
def trunc_rat (q : Rat) : Int := q.num.tdiv (q.den : Int)

/-- SQLAlchemy `Query.scalar()` over a single selected column: `none` when no
row matched, the value of the only row otherwise, MultipleResultsFound on
several rows. -/
def scalar_option (l : List (Option Int)) : Except Err (Option Int) :=
  match l with
  | [] => .ok none
  | [x] => .ok x
  | _ :: _ :: _ => .error .multiple_results

/-- The `base_credit_allowance` lookup in `max_credits`:
`session.query(BaseSetting).filter(setting_key == "base_credit_allowance")
.scalar().setting_value` parsed with `int(...)`; a missing row makes the
`.setting_value` access raise AttributeError on `None`. -/
def base_allowance_scalar (db : DBState) : Except Err Int :=
  match db.settings.filter (fun s => s.1 == "base_credit_allowance") with
  | [] => .error .attribute_error
  | [s] => .ok s.2
  | _ :: _ :: _ => .error .multiple_results

/-- The credit-group join in `max_credits`:
`sum(CreditGroup.max_credit)` joined with `CreditGroupUser` on
`CreditGroup.id == CreditGroupUser.credit_group_id`, filtered to
`CreditGroupUser.user_id == user`, with `coalesce(..., 0)`. -/
def credit_group_sum (db : DBState) (user_id : String) : Int :=
  (db.credit_groups.flatMap (fun g =>
    (db.credit_group_users.filter
      (fun cu => cu.1 == g.id && cu.2 == user_id)).map
      (fun _ => g.max_credit))).sum

/-- TokenTracker.max_credits, translated from `tracking.py` lines 226-281:
raises RuntimeError when both a name and an id are supplied; with neither it
returns base allowance plus group allowances; with a name (resp. id) it
returns the `scalar()` of the matching allowance's `monthly_credit_limit`. -/
def max_credits (db : DBState) (user_id : String)
    (sponsored_allowance_name : Option String)
    (sponsored_allowance_id : Option String) : Except Err (Option Int) :=
  match sponsored_allowance_name, sponsored_allowance_id with
  | some _, some _ => .error .configuration_error
  | none, none =>
    match base_allowance_scalar db with
    | .error e => .error e
    | .ok base => .ok (some (base + credit_group_sum db user_id))
  | some n, none =>
    scalar_option
      ((db.sponsored_allowances.filter (fun a => a.name == n)).map
        (fun a => a.monthly_credit_limit))
  | none, some i =>
    scalar_option
      ((db.sponsored_allowances.filter (fun a => a.id == i)).map
        (fun a => a.monthly_credit_limit))

/-- Exact per-record cost formula of `_calc_credits_from_tokens`:
`(input_cost_credits / per_input_tokens) * prompt_tokens +
(output_cost_credits / per_output_tokens) * response_tokens`, with the model
looked up by `next(item for item in models if item.id == model)`. Yields 0
when no pricing row matches (that case raises in the source and is excluded
by hypothesis wherever this function is used). -/
def row_cost (models : List ModelPricing) (model_id : String)
    (prompt_tokens response_tokens : Int) : Rat :=
  match models.find? (fun m => m.id == model_id) with
  | none => 0
  | some m =>
    ((m.input_cost_credits : Rat) / (m.per_input_tokens : Rat)) * prompt_tokens
      + ((m.output_cost_credits : Rat) / (m.per_output_tokens : Rat)) * response_tokens

/-- TokenTracker._calc_credits_from_tokens, translated from `tracking.py`
lines 62-87: folds over the records, adding each record's floating-point cost
to the accumulator with no per-record truncation; a record whose model is not
in `models` raises AttributeError (the `next(..., None)` default), and a zero
`per_*_tokens` rate raises ZeroDivisionError. -/
def calc_credits_from_tokens (records : List (String × Int × Int))
    (models : List ModelPricing) : Except Err Rat :=
  match records with
  | [] => .ok 0
  | (mid, p, q) :: rest =>
    match models.find? (fun m => m.id == mid) with
    | none => .error .attribute_error
    | some m =>
      if m.per_input_tokens == 0 || m.per_output_tokens == 0 then
        .error .zero_division
      else
        match calc_credits_from_tokens rest models with
        | .error e => .error e
        | .ok acc =>
          .ok (acc + (((m.input_cost_credits : Rat) / (m.per_input_tokens : Rat)) * p
            + ((m.output_cost_credits : Rat) / (m.per_output_tokens : Rat)) * q))

/-- One step of the SQL `group_by(model_id)` with `sum(prompt_tokens)` and
`sum(response_tokens)`: merge a row into the accumulated per-model sums. -/
def insert_grouped (acc : List (String × Int × Int))
    (rec : String × Int × Int) : List (String × Int × Int) :=
  match acc, rec with
  | [], (m, p, q) => [(m, p, q)]
  | (m0, p0, q0) :: rest, (m, p, q) =>
    if m0 == m then (m0, p0 + p, q0 + q) :: rest
    else (m0, p0, q0) :: insert_grouped rest (m, p, q)

/-- The SQL `group_by(TokenUsageLog.model_id)` aggregation used by both
remaining-credit queries. -/
def group_by_model (rows : List (String × Int × Int)) :
    List (String × Int × Int) :=
  rows.foldl insert_grouped []

/-- The row filter of the usage query in `_remaining_user_credits`
(`tracking.py` lines 106-135): rows of this user, with `date(log_date)` inside
the current calendar month, model in the pricing catalog, and
`sponsored_allowance_id` equal to the requested scope. -/
def monthly_rows (db : DBState) (today : Date) (user_id : String)
    (sponsored_allowance_id : Option String) : List TokenUsageLog :=
  let first_day : Date := ⟨today.year, today.month, 1⟩
  let last_day : Date := ⟨today.year, today.month, days_in_month today.year today.month⟩
  let model_list := db.models.map (fun m => m.id)
  db.usage.filter (fun r =>
    r.user_id == user_id
      && Date.ble first_day r.log_date
      && Date.ble r.log_date last_day
      && model_list.contains r.model_id
      && r.sponsored_allowance_id == sponsored_allowance_id)

/-- TokenTracker._remaining_user_credits, translated from `tracking.py` lines
89-143: sums this month's usage in the given scope, converts to credits, and
returns `max_credits(user, sponsored_allowance_id=scope) - int(used)`; a
`None` maximum makes the subtraction raise TypeError. -/
def remaining_user_credits (db : DBState) (today : Date) (user_id : String)
    (sponsored_allowance_id : Option String) : Except Err Int :=
  let rows := monthly_rows db today user_id sponsored_allowance_id
  let grouped := group_by_model
    (rows.map (fun r => (r.model_id, r.prompt_tokens, r.response_tokens)))
  match calc_credits_from_tokens grouped db.models with
  | .error e => .error e
  | .ok used =>
    match max_credits db user_id none sponsored_allowance_id with
    | .error e => .error e
    | .ok none => .error .type_error
    | .ok (some m) => .ok (m - trunc_rat used)

/-- The row filter of the usage query in `_remaining_sponsored_credits`
(`tracking.py` lines 165-179): rows of ANY user carrying this allowance id,
with model in the pricing catalog, and — as written in the source —
`date(log_date) <= creation_date`. -/
def sponsored_rows (db : DBState) (creation_date : Date)
    (sponsored_allowance_id : String) : List TokenUsageLog :=
  let model_list := db.models.map (fun m => m.id)
  db.usage.filter (fun r =>
    r.sponsored_allowance_id == some sponsored_allowance_id
      && Date.ble r.log_date creation_date
      && model_list.contains r.model_id)

/-- TokenTracker._remaining_sponsored_credits, translated from `tracking.py`
lines 145-185: fetches the allowance's creation date and total limit
(`first()` on no row unpacks `None` and raises TypeError), sums the matching
usage, and returns `int(total_credit_limit - total_credits_used)`. -/
def remaining_sponsored_credits (db : DBState)
    (sponsored_allowance_id : String) : Except Err Int :=
  match db.sponsored_allowances.filter (fun a => a.id == sponsored_allowance_id) with
  | [] => .error .type_error
  | a :: _ =>
    let rows := sponsored_rows db a.creation_date sponsored_allowance_id
    let grouped := group_by_model
      (rows.map (fun r => (r.model_id, r.prompt_tokens, r.response_tokens)))
    match calc_credits_from_tokens grouped db.models with
    | .error e => .error e
    | .ok used => .ok (trunc_rat ((a.total_credit_limit : Rat) - used))

/-- The dictionary returned by `get_sponsored_allowance` in `sponsored.py`
(with `base_models` flattened to the base model ids of the association
rows). -/
structure SponsoredAllowanceDict where
  id : String
  name : String
  sponsor_id : String
  total_credit_limit : Int
  monthly_credit_limit : Option Int
  base_models : List String
deriving DecidableEq

/-- get_sponsored_allowance, translated from `sponsored.py` lines 91-135:
ValueError when neither name nor id is given; otherwise filters by whichever
of the two is given, takes `first()`, and raises KeyError when no allowance
matches. -/
def get_sponsored_allowance (db : DBState) (name : Option String)
    (id : Option String) : Except Err SponsoredAllowanceDict :=
  if name.isNone && id.isNone then .error .value_error
  else
    let q : List SponsoredAllowance := db.sponsored_allowances
    let q : List SponsoredAllowance := match name with
      | some n => q.filter (fun a => a.name == n)
      | none => q
    let q : List SponsoredAllowance := match id with
      | some i => q.filter (fun a => a.id == i)
      | none => q
    match q with
    | [] => .error .key_error
    | a :: _ =>
      .ok ⟨a.id, a.name, a.sponsor_id, a.total_credit_limit,
        a.monthly_credit_limit, a.base_models⟩

/-- create_sponsored_allowance, translated from `sponsored.py` lines 13-41:
inserts one `SponsoredAllowance` row with the given fields plus one
association row per eligible model, and commits. The generated UUID and the
server-side `CURRENT_TIMESTAMP` creation date are passed as parameters. -/
def create_sponsored_allowance (db : DBState) (new_id : String)
    (creation_date : Date) (sponsor_id : String) (name : String)
    (models : List String) (total_credit_limit : Int)
    (monthly_credit_limit : Int) : DBState :=
  { db with sponsored_allowances := db.sponsored_allowances ++
      [⟨new_id, creation_date, name, sponsor_id, total_credit_limit,
        some monthly_credit_limit, models⟩] }

/-- TokenTracker.is_paid, translated from `tracking.py` lines 211-224: filters
the pricing catalog by id; anything other than exactly one match raises
RuntimeError (the AmbiguousModelError of the spec); otherwise true iff the
input or output cost rate is positive. -/
def is_paid (db : DBState) (model_id : String) : Except Err Bool :=
  match db.models.filter (fun m => m.id == model_id) with
  | [m] => .ok (decide (0 < m.input_cost_credits) || decide (0 < m.output_cost_credits))
  | _ => .error .ambiguous_model

/-- TokenTracker.remaining_credits, translated from `tracking.py` lines
283-314: with a name, resolves it through `get_sponsored_allowance`
(propagating its KeyError) and uses the resulting id as scope; the sponsor
total is computed only when the name is truthy in Python (`if
sponsored_allowance_name:`), i.e. a non-empty string. -/
def remaining_credits (db : DBState) (today : Date) (user_id : String)
    (sponsored_allowance_name : Option String) : Except Err (Int × Option Int) :=
  match sponsored_allowance_name with
  | none =>
    match remaining_user_credits db today user_id none with
    | .error e => .error e
    | .ok r => .ok (r, none)
  | some n =>
    match get_sponsored_allowance db (some n) none with
    | .error e => .error e
    | .ok a =>
      match remaining_user_credits db today user_id (some a.id) with
      | .error e => .error e
      | .ok r =>
        if n != "" then
          match remaining_sponsored_credits db a.id with
          | .error e => .error e
          | .ok t => .ok (r, some t)
        else .ok (r, none)

/-- Outcome of `BaseTrackedPipe._check_limits`. The monthly-limit errors are
carried as their parameters (allowance name, `max_credits` value) because the
source interpolates a wall-clock countdown (`_time_to_month_end()`) into
those messages; the total-limit message is carried verbatim. -/
inductive GateResult where
  | allowed
  | total_limit (message : String)
  | monthly_limit_sponsored (sponsored_allowance_name : String) (max_credits : Option Int)
  | monthly_limit_personal (max_credits : Option Int)
  | fault (e : Err)
deriving DecidableEq

/-- The message of `TotalTokenLimitExceededError` in
`BaseTrackedPipe._check_limits` (quotation marks around the name elided). -/
def total_limit_message (sponsored_allowance_name : String) : String :=
  "The total credit limit for the sponsored allowance "
    ++ sponsored_allowance_name
    ++ " has been exceeded. Please contact the sponsor to add more credits, or choose a different model."

/-- Monthly-limit tail of `_check_limits` (`base_tracked_pipe.py` lines
131-148): with a sponsor name and exhausted monthly credits, re-reads
`max_credits` for the message and raises the sponsored monthly error;
otherwise with exhausted monthly credits raises the personal monthly error. -/
def check_limits_monthly (db : DBState) (user_id : String)
    (sponsored_allowance_name : Option String)
    (monthly_credits_remaining : Int) : GateResult :=
  match sponsored_allowance_name with
  | some n =>
    if monthly_credits_remaining ≤ 0 then
      match max_credits db user_id (some n) none with
      | .error e => .fault e
      | .ok mc => .monthly_limit_sponsored n mc
    else .allowed
  | none =>
    if monthly_credits_remaining ≤ 0 then
      match max_credits db user_id none none with
      | .error e => .fault e
      | .ok mc => .monthly_limit_personal mc
    else .allowed

/-- BaseTrackedPipe._check_limits, translated from `base_tracked_pipe.py`
lines 97-150: free models pass unconditionally; then the sponsor total check
(`total is not None and total <= 0`) runs strictly before the monthly
checks. -/
def check_limits (db : DBState) (today : Date) (model_id : String)
    (user_id : String) (sponsored_allowance_name : Option String) : GateResult :=
  match is_paid db model_id with
  | .error e => .fault e
  | .ok false => .allowed
  | .ok true =>
    match remaining_credits db today user_id sponsored_allowance_name with
    | .error e => .fault e
    | .ok (monthly_credits_remaining, total_sponsored_credits_remaining) =>
      match total_sponsored_credits_remaining with
      | some t =>
        if t ≤ 0 then
          .total_limit (total_limit_message (sponsored_allowance_name.getD "None"))
        else
          check_limits_monthly db user_id sponsored_allowance_name
            monthly_credits_remaining
      | none =>
        check_limits_monthly db user_id sponsored_allowance_name
          monthly_credits_remaining

/-- The cost of one usage row under the exact per-row formula; used to state
that credits are accumulated row by row without per-row truncation. -/
def usage_row_cost (models : List ModelPricing) (r : TokenUsageLog) : Rat :=
  row_cost models r.model_id r.prompt_tokens r.response_tokens

/-- Weighted cost of a list of (model, prompt sum, response sum) records. -/
def ws (models : List ModelPricing) (recs : List (String × Int × Int)) : Rat :=
  (recs.map (fun t => row_cost models t.1 t.2.1 t.2.2)).sum

/-- The spec's formula for the remaining total of a sponsored allowance,
written from the spec's words for comparison with
`remaining_sponsored_credits`: total_credit_limit minus the credits of all
usage rows of ANY user carrying the allowance's id whose log date lies
between the allowance's creation date and now. -/
def spec_sponsored_remaining (db : DBState) (now : Date)
    (allowance : SponsoredAllowance) : Int :=
  let model_list := db.models.map (fun m => m.id)
  let rows := db.usage.filter (fun r =>
    r.sponsored_allowance_id == some allowance.id
      && Date.ble allowance.creation_date r.log_date
      && Date.ble r.log_date now
      && model_list.contains r.model_id)
  trunc_rat ((allowance.total_credit_limit : Rat)
    - (rows.map (usage_row_cost db.models)).sum)

/-- The spec's formula for a user's additive group allowance, written from
the spec's words for comparison with `credit_group_sum`: the sum of
`max_credit` over all credit groups the user belongs to, each group counted
once. -/
def spec_group_sum (db : DBState) (user_id : String) : Int :=
  ((db.credit_groups.filter
    (fun g => decide ((g.id, user_id) ∈ db.credit_group_users))).map
    (fun g => g.max_credit)).sum

deriving instance DecidableEq for Except

/-- Pricing row used in concrete witnesses: model `m` costs 1 credit per
input token and 1 credit per output token. -/
def model_one : ModelPricing := ⟨"m", "prov", "model m", 1, 1, 1, 1⟩

/-- Allowance used in the C1 counterexample database: created 2024-01-01
with a total credit limit of 100. -/
def allowance_c1 : SponsoredAllowance :=
  ⟨"a1", ⟨2024, 1, 1⟩, "spons", "sp", 100, some 50, ["m"]⟩

/-- Database for the C1 counterexample: a single usage row of 10 input
tokens on the allowance, logged 2024-06-01, well after the allowance's
creation date. -/
def db_c1 : DBState :=
  { models := [model_one]
    usage := [⟨"prov", "u", "m", 10, 0, some "a1", ⟨2024, 6, 1⟩⟩]
    credit_groups := []
    credit_group_users := []
    settings := []
    sponsored_allowances := [allowance_c1] }

/-- Database for the C2 witness: allowance `spons` with total limit 5 and
monthly limit 3, both exhausted (the total via a row dated before the
creation date, which is the only kind the source's query counts). -/
def db_c2 : DBState :=
  { models := [model_one]
    usage := [⟨"prov", "u", "m", 5, 0, some "a1", ⟨2024, 6, 10⟩⟩,
              ⟨"prov", "u", "m", 10, 0, some "a1", ⟨2023, 12, 1⟩⟩]
    credit_groups := []
    credit_group_users := []
    settings := []
    sponsored_allowances := [⟨"a1", ⟨2024, 1, 1⟩, "spons", "sp", 5, some 3, ["m"]⟩] }

/-- Database for the C3 witness: one free model and no base-setting row, so
any attempt to read remaining credits would fault — demonstrating that the
gate does not consult them for a free model. -/
def db_c3 : DBState :=
  { models := [⟨"f", "prov", "free model", 0, 1, 0, 1⟩]
    usage := []
    credit_groups := []
    credit_group_users := []
    settings := []
    sponsored_allowances := [] }

/-- Database for the C4 witness: the single usage row costs exactly
2.99999 credits (299999 credits per 100000 input tokens, 1 token used). -/
def db_c4 : DBState :=
  { models := [⟨"m", "prov", "model m", 299999, 100000, 0, 1⟩]
    usage := [⟨"prov", "u", "m", 1, 0, none, ⟨2024, 6, 10⟩⟩]
    credit_groups := []
    credit_group_users := []
    settings := [("base_credit_allowance", 10)]
    sponsored_allowances := [] }

/-- Database for the C5 witness: base allowance 1000, one credit group
granting 2000 with user `u` as a member. -/
def db_c5 : DBState :=
  { models := []
    usage := []
    credit_groups := [⟨"g1", "test group", 2000⟩]
    credit_group_users := [("g1", "u")]
    settings := [("base_credit_allowance", 1000)]
    sponsored_allowances := [] }

/-- Database for the second C5 witness conjunct: base allowance 1000 and no
group memberships at all. -/
def db_c5b : DBState :=
  { models := []
    usage := []
    credit_groups := []
    credit_group_users := []
    settings := [("base_credit_allowance", 1000)]
    sponsored_allowances := [] }

/-- Database for the C6 witness: allowance `unbounded` with an unset
monthly credit limit, and group data that must not leak into the result. -/
def db_c6 : DBState :=
  { models := []
    usage := []
    credit_groups := [⟨"g1", "test group", 2000⟩]
    credit_group_users := [("g1", "u")]
    settings := [("base_credit_allowance", 1000)]
    sponsored_allowances := [⟨"a2", ⟨2024, 1, 1⟩, "unbounded", "sp", 10, none, []⟩] }

/-- Database for the C8 witness: exactly one pricing row, for model `m`. -/
def db_c8 : DBState :=
  { models := [model_one]
    usage := []
    credit_groups := []
    credit_group_users := []
    settings := []
    sponsored_allowances := [] }

/-- Database for the C10 witness: no allowance is named `ghost`. -/
def db_c10 : DBState :=
  { models := []
    usage := []
    credit_groups := []
    credit_group_users := []
    settings := []
    sponsored_allowances := [⟨"a9", ⟨2024, 1, 1⟩, "other", "sp", 10, some 5, []⟩] }

/-- Database for the C10 witness: an allowance named `ghost` exists but its
monthly credit limit is unset. -/
def db_c10b : DBState :=
  { models := []
    usage := []
    credit_groups := []
    credit_group_users := []
    settings := []
    sponsored_allowances := [⟨"a3", ⟨2024, 1, 1⟩, "ghost", "sp", 10, none, []⟩] }
/-- Linearity of the per-record cost formula in the token counts. -/
theorem row_cost_add (models : List ModelPricing) (m : String)
    (p1 q1 p2 q2 : Int) :
    row_cost models m (p1 + p2) (q1 + q2)
      = row_cost models m p1 q1 + row_cost models m p2 q2 := by
  unfold row_cost
  cases h : models.find? (fun x => x.id == m) with
  | none => simp
  | some md => push_cast; ring

theorem ws_nil (models : List ModelPricing) : ws models [] = 0 := rfl

theorem ws_cons (models : List ModelPricing) (t : String × Int × Int)
    (l : List (String × Int × Int)) :
    ws models (t :: l) = row_cost models t.1 t.2.1 t.2.2 + ws models l := by
  simp [ws]

/-- Merging one record into the per-model sums preserves the total cost. -/
theorem ws_insert_grouped (models : List ModelPricing)
    (acc : List (String × Int × Int)) (t : String × Int × Int) :
    ws models (insert_grouped acc t)
      = ws models acc + row_cost models t.1 t.2.1 t.2.2 := by
  induction acc with
  | nil =>
    obtain ⟨m, p, q⟩ := t
    simp [insert_grouped, ws]
  | cons hd tl ih =>
    obtain ⟨m0, p0, q0⟩ := hd
    obtain ⟨m, p, q⟩ := t
    by_cases h : (m0 == m) = true
    · have hm : m0 = m := by exact eq_of_beq h
      subst hm
      rw [show insert_grouped ((m0, p0, q0) :: tl) (m0, p, q)
            = (m0, p0 + p, q0 + q) :: tl by simp [insert_grouped]]
      rw [ws_cons, ws_cons]
      simp only []
      rw [row_cost_add]
      ring
    · rw [show insert_grouped ((m0, p0, q0) :: tl) (m, p, q)
            = (m0, p0, q0) :: insert_grouped tl (m, p, q) by simp [insert_grouped, h]]
      rw [ws_cons, ws_cons, ih]
      ring

/-- Folding the grouping step over any prefix accumulates the total cost. -/
theorem ws_foldl (models : List ModelPricing) (rows : List (String × Int × Int)) :
    ∀ acc, ws models (rows.foldl insert_grouped acc) = ws models acc + ws models rows := by
  induction rows with
  | nil => intro acc; simp [ws]
  | cons r t ih =>
    intro acc
    rw [List.foldl_cons, ih, ws_insert_grouped, ws_cons]
    ring

/-- Grouping by model preserves the total cost: the SQL `group_by` aggregation
loses no fractional credits. -/
theorem ws_group_by_model (models : List ModelPricing)
    (rows : List (String × Int × Int)) :
    ws models (group_by_model rows) = ws models rows := by
  unfold group_by_model
  rw [ws_foldl]
  simp [ws]

/-- Every record produced by one merge step has the model id of the merged
record or of one already in the accumulator. -/
theorem insert_grouped_fst (acc : List (String × Int × Int))
    (t : String × Int × Int) :
    ∀ u ∈ insert_grouped acc t, u.1 = t.1 ∨ ∃ v ∈ acc, u.1 = v.1 := by
  induction acc with
  | nil =>
    obtain ⟨m, p, q⟩ := t
    intro u hu
    simp [insert_grouped] at hu
    left; rw [hu]
  | cons hd tl ih =>
    obtain ⟨m0, p0, q0⟩ := hd
    obtain ⟨m, p, q⟩ := t
    intro u hu
    by_cases h : (m0 == m) = true
    · rw [show insert_grouped ((m0, p0, q0) :: tl) (m, p, q)
            = (m0, p0 + p, q0 + q) :: tl by simp [insert_grouped, h]] at hu
      rcases List.mem_cons.mp hu with h1 | h1
      · left; rw [h1]; exact eq_of_beq h
      · right; exact ⟨u, List.mem_cons_of_mem _ h1, rfl⟩
    · rw [show insert_grouped ((m0, p0, q0) :: tl) (m, p, q)
            = (m0, p0, q0) :: insert_grouped tl (m, p, q) by simp [insert_grouped, h]] at hu
      rcases List.mem_cons.mp hu with h1 | h1
      · right; exact ⟨(m0, p0, q0), List.mem_cons_self _ _, by rw [h1]⟩
      · rcases ih u h1 with h2 | ⟨v, hv, h2⟩
        · left; exact h2
        · right; exact ⟨v, List.mem_cons_of_mem _ hv, h2⟩

/-- Every record of the grouped list takes its model id from the accumulator
or from some input row. -/
theorem foldl_insert_grouped_fst (rows : List (String × Int × Int)) :
    ∀ acc, ∀ u ∈ rows.foldl insert_grouped acc,
      (∃ v ∈ acc, u.1 = v.1) ∨ ∃ r ∈ rows, u.1 = r.1 := by
  induction rows with
  | nil => intro acc u hu; left; exact ⟨u, hu, rfl⟩
  | cons r t ih =>
    intro acc u hu
    rw [List.foldl_cons] at hu
    rcases ih (insert_grouped acc r) u hu with ⟨v, hv, h2⟩ | ⟨r0, hr0, h2⟩
    · rcases insert_grouped_fst acc r v hv with h3 | ⟨w, hw, h3⟩
      · right; exact ⟨r, List.mem_cons_self _ _, by rw [h2, h3]⟩
      · left; exact ⟨w, hw, by rw [h2, h3]⟩
    · right; exact ⟨r0, List.mem_cons_of_mem _ hr0, h2⟩

/-- Every record of `group_by_model rows` takes its model id from some row. -/
theorem group_by_model_fst (rows : List (String × Int × Int)) :
    ∀ u ∈ group_by_model rows, ∃ r ∈ rows, u.1 = r.1 := by
  intro u hu
  rcases foldl_insert_grouped_fst rows [] u hu with ⟨v, hv, _⟩ | h
  · simp at hv
  · exact h

/-- Specification of `_calc_credits_from_tokens` on records whose models all
resolve to a pricing row with nonzero token denominators: it returns exactly
the untruncated rational sum of the per-record costs. -/
theorem calc_credits_from_tokens_ok (models : List ModelPricing)
    (recs : List (String × Int × Int))
    (h : ∀ t ∈ recs, ∃ md, models.find? (fun x => x.id == t.1) = some md
      ∧ md.per_input_tokens ≠ 0 ∧ md.per_output_tokens ≠ 0) :
    calc_credits_from_tokens recs models = .ok (ws models recs) := by
  induction recs with
  | nil => simp [calc_credits_from_tokens, ws]
  | cons r t ih =>
    obtain ⟨m, p, q⟩ := r
    obtain ⟨md, hf, h1, h2⟩ := h (m, p, q) (List.mem_cons_self _ _)
    have hcond : (md.per_input_tokens == 0 || md.per_output_tokens == 0) = false := by
      simp [h1, h2]
    simp only [calc_credits_from_tokens, hf, hcond,
      ih (fun u hu => h u (List.mem_cons_of_mem _ hu)), ws_cons,
      Bool.false_eq_true, if_false]
    congr 1
    unfold row_cost
    rw [hf]
    ring

/-- Every grouped record of the monthly usage query resolves to a pricing row
(the query filters on the catalog's model list), with nonzero denominators
under the catalog hypothesis. -/
theorem monthly_rows_model_ok (db : DBState) (today : Date) (user_id : String)
    (scope : Option String)
    (hden : ∀ m ∈ db.models, m.per_input_tokens ≠ 0 ∧ m.per_output_tokens ≠ 0) :
    ∀ t ∈ group_by_model ((monthly_rows db today user_id scope).map
        (fun r => (r.model_id, r.prompt_tokens, r.response_tokens))),
      ∃ md, db.models.find? (fun x => x.id == t.1) = some md
        ∧ md.per_input_tokens ≠ 0 ∧ md.per_output_tokens ≠ 0 := by
  intro t ht
  obtain ⟨r, hr, heq⟩ := group_by_model_fst _ t ht
  obtain ⟨r0, hr0, hproj⟩ := List.mem_map.mp hr
  have hid : t.1 = r0.model_id := by rw [heq, ← hproj]
  simp only [monthly_rows] at hr0
  have hcond := (List.mem_filter.mp hr0).2
  simp only [Bool.and_eq_true] at hcond
  have hcontains : (db.models.map (fun m => m.id)).contains r0.model_id = true :=
    hcond.1.2
  have hmem : r0.model_id ∈ db.models.map (fun m => m.id) := by
    simpa using hcontains
  obtain ⟨m0, hm0, hm0id⟩ := List.mem_map.mp hmem
  have hsome : (db.models.find? (fun x => x.id == t.1)).isSome := by
    rw [List.find?_isSome]
    exact ⟨m0, hm0, by rw [hid, hm0id]; exact beq_self_eq_true _⟩
  cases hfind : db.models.find? (fun x => x.id == t.1) with
  | none => rw [hfind] at hsome; simp at hsome
  | some md =>
    have hmdmem := List.mem_of_find?_eq_some hfind
    exact ⟨md, rfl, (hden md hmdmem).1, (hden md hmdmem).2⟩

/-- Count of matching membership rows in a duplicate-free membership table:
one if the pair is present, zero otherwise. -/
theorem filter_pair_length (l : List (String × String)) (a b : String)
    (h : l.Nodup) :
    (l.filter (fun cu => cu.1 == a && cu.2 == b)).length
      = if (a, b) ∈ l then 1 else 0 := by
  induction l with
  | nil => simp
  | cons cu tl ih =>
    obtain ⟨hnotmem, htl⟩ := List.nodup_cons.mp h
    by_cases hc : (cu.1 == a && cu.2 == b) = true
    · have hcu : cu = (a, b) := by
        have e12 : (cu.1 == a) = true ∧ (cu.2 == b) = true := by simpa using hc
        exact Prod.ext (eq_of_beq e12.1) (eq_of_beq e12.2)
      rw [List.filter_cons, if_pos hc]
      have hmem : (a, b) ∈ cu :: tl := by rw [hcu]; exact List.mem_cons_self _ _
      rw [if_pos hmem]
      have : (a, b) ∉ tl := by rw [← hcu]; exact hnotmem
      rw [List.length_cons, ih htl, if_neg this]
    · rw [List.filter_cons, if_neg hc]
      have hne : cu ≠ (a, b) := by
        intro hcu
        apply hc
        rw [hcu]
        simp
      rw [ih htl]
      by_cases hmem : (a, b) ∈ tl
      · rw [if_pos hmem, if_pos (List.mem_cons_of_mem _ hmem)]
      · rw [if_neg hmem, if_neg (by
          intro hx
          rcases List.mem_cons.mp hx with hx | hx
          · exact hne hx.symm
          · exact hmem hx)]

/-- The SQL join-and-sum of `max_credits` equals the spec's sum over the
groups the user belongs to, provided the membership table has no duplicate
rows (its composite primary key). -/
theorem credit_group_sum_eq_spec (db : DBState) (user_id : String)
    (h : db.credit_group_users.Nodup) :
    credit_group_sum db user_id = spec_group_sum db user_id := by
  unfold credit_group_sum spec_group_sum
  induction db.credit_groups with
  | nil => simp
  | cons g tl ih =>
    rw [List.flatMap_cons, List.sum_append, ih]
    by_cases hmem : (g.id, user_id) ∈ db.credit_group_users
    · rw [List.filter_cons, if_pos (by simpa using hmem)]
      have : ((db.credit_group_users.filter
          (fun cu => cu.1 == g.id && cu.2 == user_id)).map
          (fun _ => g.max_credit)).sum = g.max_credit := by
        rw [List.map_const', List.sum_replicate, filter_pair_length _ _ _ h,
          if_pos hmem]
        simp
      rw [this, List.map_cons, List.sum_cons]
    · rw [List.filter_cons, if_neg (by simpa using hmem)]
      have : ((db.credit_group_users.filter
          (fun cu => cu.1 == g.id && cu.2 == user_id)).map
          (fun _ => g.max_credit)).sum = 0 := by
        rw [List.map_const', List.sum_replicate, filter_pair_length _ _ _ h,
          if_neg hmem]
        simp
      rw [this, zero_add]


section
attribute [local semireducible] Rat.mul Rat.inv Rat.add Rat.sub

/-- C1: the claim states that the second component of `remaining_credits`
for a sponsored allowance equals `total_credit_limit` minus the credits of
all usage rows of every user carrying the allowance's id logged between the
allowance's creation date and now. The source instead filters
`date(log_date) <= creation_date`, the inverse window: on a database with an
allowance created 2024-01-01, total limit 100, and one 10-credit usage row
on the allowance logged 2024-06-01, the source's computation
(`remaining_sponsored_credits`) yields 100 — the post-creation usage is
ignored — while the claimed lifetime-window formula
(`spec_sponsored_remaining`) yields 90. -/
theorem c1_sponsored_window_inverted :
    remaining_sponsored_credits db_c1 "a1" = .ok 100
      ∧ spec_sponsored_remaining db_c1 ⟨2024, 7, 1⟩ allowance_c1 = 90 := by
  constructor <;> decide

end

/-- C2: whenever the gate's check runs with a sponsored allowance name on a
paid model and `remaining_credits` reports both the user's monthly remaining
and the sponsor's total remaining as non-positive, the check fails with the
total-limit error — evaluated strictly before the monthly check — and the
error message names the sponsor allowance (it decomposes as
`s1 ++ name ++ s2`). -/
theorem c2_total_before_monthly (db : DBState) (today : Date) (model_id : String)
    (user_id : String) (n : String) (mr tr : Int)
    (hpaid : is_paid db model_id = .ok true)
    (hrem : remaining_credits db today user_id (some n) = .ok (mr, some tr))
    (htr : tr ≤ 0) (hmr : mr ≤ 0) :
    check_limits db today model_id user_id (some n)
      = .total_limit (total_limit_message n)
    ∧ ∃ s1 s2, total_limit_message n = s1 ++ n ++ s2 := by
  have _hmr := hmr
  constructor
  · simp only [check_limits, hpaid, hrem]
    rw [if_pos htr]
    simp only [Option.getD]
  · exact ⟨"The total credit limit for the sponsored allowance ",
      " has been exceeded. Please contact the sponsor to add more credits, or choose a different model.",
      rfl⟩

section
attribute [local semireducible] Rat.mul Rat.inv Rat.add Rat.sub

/-- C2 witness: on `db_c2` (sponsor total remaining -5, monthly remaining
-2) the gate fails with the total-limit error naming `spons`. -/
theorem c2_witness :
    check_limits db_c2 ⟨2024, 6, 15⟩ "m" "u" (some "spons")
      = .total_limit (total_limit_message "spons")
    ∧ ∃ s1 s2, total_limit_message "spons" = s1 ++ "spons" ++ s2 :=
  c2_total_before_monthly db_c2 ⟨2024, 6, 15⟩ "m" "u" "spons" (-2) (-5)
    (by decide) (by decide) (by decide) (by decide)

end

/-- C3: for every model whose pricing row has non-positive input and output
cost rates, the gate's check returns allowed for every user and every
database state — in particular remaining credits are never consulted, since
the result holds even for databases on which computing them would fault. -/
theorem c3_free_models_never_gated (db : DBState) (today : Date)
    (model_id : String) (user_id : String)
    (sponsored_allowance_name : Option String) (md : ModelPricing)
    (hfilter : db.models.filter (fun x => x.id == model_id) = [md])
    (hin : md.input_cost_credits ≤ 0) (hout : md.output_cost_credits ≤ 0) :
    check_limits db today model_id user_id sponsored_allowance_name = .allowed := by
  have h1 : decide (0 < md.input_cost_credits) = false :=
    decide_eq_false (not_lt.mpr hin)
  have h2 : decide (0 < md.output_cost_credits) = false :=
    decide_eq_false (not_lt.mpr hout)
  have hp : is_paid db model_id = .ok false := by
    simp only [is_paid, hfilter, h1, h2, Bool.or_self]
  simp only [check_limits, hp]

/-- C3 witness: the free model of `db_c3` passes the gate although the
base-setting row needed to compute remaining credits is absent. -/
theorem c3_witness :
    check_limits db_c3 ⟨2024, 6, 15⟩ "f" "u" none = .allowed :=
  c3_free_models_never_gated db_c3 ⟨2024, 6, 15⟩ "f" "u" none
    ⟨"f", "prov", "free model", 0, 1, 0, 1⟩ (by decide) (by decide) (by decide)

section
attribute [local semireducible] Rat.mul Rat.inv Rat.add Rat.sub

/-- C4: for every multiset of usage rows, the remaining-credit computation
accumulates the exact (untruncated) per-row cost
`(input_cost_credits / per_input_tokens) * prompt_tokens +
(output_cost_credits / per_output_tokens) * response_tokens` across all rows
and truncates only the grand total toward zero — per-row totals are never
truncated, and an accumulated total of 2.99999 credits yields 2. -/
theorem c4_final_truncation (db : DBState) (today : Date) (user_id : String)
    (scope : Option String) (M : Int)
    (hmax : max_credits db user_id none scope = .ok (some M))
    (hden : ∀ m ∈ db.models, m.per_input_tokens ≠ 0 ∧ m.per_output_tokens ≠ 0) :
    remaining_user_credits db today user_id scope
      = .ok (M - trunc_rat (((monthly_rows db today user_id scope).map
          (usage_row_cost db.models)).sum))
    ∧ trunc_rat ((299999 : Rat) / 100000) = 2 := by
  constructor
  · simp only [remaining_user_credits]
    rw [calc_credits_from_tokens_ok db.models _
      (monthly_rows_model_ok db today user_id scope hden), hmax]
    rw [ws_group_by_model]
    simp only [ws, List.map_map]
    rfl
  · decide

end

/-- C4 witness: on `db_c4` (base allowance 10, one row costing exactly
2.99999 credits) the remaining credits equal 10 minus the truncated exact
sum. -/
theorem c4_witness :
    remaining_user_credits db_c4 ⟨2024, 6, 15⟩ "u" none
      = .ok (10 - trunc_rat (((monthly_rows db_c4 ⟨2024, 6, 15⟩ "u" none).map
          (usage_row_cost db_c4.models)).sum))
    ∧ trunc_rat ((299999 : Rat) / 100000) = 2 :=
  c4_final_truncation db_c4 ⟨2024, 6, 15⟩ "u" none 10 (by decide) (by decide)

/-- C5: for every user, when no sponsored allowance name or id is supplied,
`max_credits` equals the `base_credit_allowance` setting plus the sum of
`max_credit` over all credit groups the user belongs to (each group counted
once, given the membership table's primary-key uniqueness); for a user in no
group the spec sum is empty and the result is the base allowance alone. -/
theorem c5_base_plus_groups (db : DBState) (user_id : String)
    (s0 : String × Int)
    (hbase : db.settings.filter (fun s => s.1 == "base_credit_allowance") = [s0])
    (hnodup : db.credit_group_users.Nodup) :
    max_credits db user_id none none = .ok (some (s0.2 + spec_group_sum db user_id)) := by
  simp only [max_credits, base_allowance_scalar, hbase]
  rw [credit_group_sum_eq_spec db user_id hnodup]

/-- C5 witness: base allowance 1000 plus one group granting 2000 for a
member, and the base allowance alone for a user in no group. -/
theorem c5_witness :
    max_credits db_c5 "u" none none = .ok (some (1000 + spec_group_sum db_c5 "u"))
    ∧ max_credits db_c5b "nogroups" none none
      = .ok (some (1000 + spec_group_sum db_c5b "nogroups")) :=
  ⟨c5_base_plus_groups db_c5 "u" ("base_credit_allowance", 1000) (by decide) (by decide),
   c5_base_plus_groups db_c5b "nogroups" ("base_credit_allowance", 1000) (by decide) (by decide)⟩

/-- C6: for every user and every existing sponsored allowance (the unique
one matching a given name), `max_credits` with that allowance name returns
its `monthly_credit_limit` verbatim — including `none` when the limit is
unset — independent of the user's group memberships and the base
allowance. -/
theorem c6_monthly_limit_verbatim (db : DBState) (user_id : String) (n : String)
    (a : SponsoredAllowance)
    (h : db.sponsored_allowances.filter (fun x => x.name == n) = [a]) :
    max_credits db user_id (some n) none = .ok a.monthly_credit_limit := by
  simp only [max_credits, h, List.map_cons, List.map_nil, scalar_option]

/-- C6 witness: on `db_c6` the allowance `unbounded` has an unset monthly
limit and the result is `none`, although the user belongs to a credit group
and a base allowance is configured. -/
theorem c6_witness :
    max_credits db_c6 "u" (some "unbounded") none = .ok none :=
  c6_monthly_limit_verbatim db_c6 "u" "unbounded"
    ⟨"a2", ⟨2024, 1, 1⟩, "unbounded", "sp", 10, none, []⟩ (by decide)

/-- C7: for every database state and user, supplying both a sponsored
allowance name and a sponsored allowance id to `max_credits` fails with the
configuration error (RuntimeError); the result is the same for every
database state, so no lookup is performed. -/
theorem c7_both_args_configuration_error (db : DBState) (user_id : String)
    (n i : String) :
    max_credits db user_id (some n) (some i) = .error .configuration_error := rfl

/-- C8: if exactly one pricing entry matches a model id, `is_paid` returns
true iff that entry's input or output cost rate is positive; if zero or more
than one entry matches, it fails with the ambiguous-model error
(RuntimeError) rather than returning a value. -/
theorem c8_is_paid_spec (db : DBState) (model_id : String) :
    (∀ md, db.models.filter (fun x => x.id == model_id) = [md] →
      is_paid db model_id
        = .ok (decide (0 < md.input_cost_credits) || decide (0 < md.output_cost_credits)))
    ∧ ((db.models.filter (fun x => x.id == model_id)).length ≠ 1 →
      is_paid db model_id = .error .ambiguous_model) := by
  constructor
  · intro md h
    simp only [is_paid, h]
  · intro hlen
    cases hfilter : db.models.filter (fun x => x.id == model_id) with
    | nil => simp only [is_paid, hfilter]
    | cons a tl =>
      cases tl with
      | nil => exact absurd (by rw [hfilter]; rfl) hlen
      | cons b tl2 => simp only [is_paid, hfilter]

/-- C8 witness: on `db_c8`, model `m` (positive input rate) is paid, and an
unknown id `zz` raises the ambiguous-model error. -/
theorem c8_witness :
    is_paid db_c8 "m"
      = .ok (decide (0 < model_one.input_cost_credits)
          || decide (0 < model_one.output_cost_credits))
    ∧ is_paid db_c8 "zz" = .error .ambiguous_model :=
  ⟨(c8_is_paid_spec db_c8 "m").1 model_one (by decide),
   (c8_is_paid_spec db_c8 "zz").2 (by decide)⟩

/-- C9: creating a sponsored allowance with eligible models `[m1, m2]`,
total credit limit 10000 and monthly credit limit 500, then fetching it by
the same (previously unused) name, returns a record with exactly that name,
total limit 10000, monthly limit 500, and exactly `[m1, m2]` as its eligible
model list — a round-trip through the store. -/
theorem c9_round_trip (db : DBState) (new_id : String) (created : Date)
    (sponsor n m1 m2 : String)
    (hfresh : ∀ a ∈ db.sponsored_allowances, a.name ≠ n) :
    get_sponsored_allowance
      (create_sponsored_allowance db new_id created sponsor n [m1, m2] 10000 500)
      (some n) none
      = .ok ⟨new_id, n, sponsor, 10000, some 500, [m1, m2]⟩ := by
  have hfil : ((db.sponsored_allowances ++
      ([⟨new_id, created, n, sponsor, 10000, some 500, [m1, m2]⟩] :
        List SponsoredAllowance)).filter (fun a => a.name == n))
      = ([⟨new_id, created, n, sponsor, 10000, some 500, [m1, m2]⟩] :
        List SponsoredAllowance) := by
    rw [List.filter_append]
    rw [List.filter_eq_nil_iff.mpr (fun a ha => by simp [hfresh a ha])]
    simp
  simp only [get_sponsored_allowance, create_sponsored_allowance,
    Option.isNone_some, Option.isNone_none, Bool.false_and, Bool.false_eq_true,
    if_false]
  rw [hfil]

/-- C9 witness: the round-trip on the empty store with name `alpha` and
models `m1`, `m2`. -/
theorem c9_witness :
    get_sponsored_allowance
      (create_sponsored_allowance ⟨[], [], [], [], [], []⟩ "id1" ⟨2024, 1, 1⟩
        "sp" "alpha" ["m1", "m2"] 10000 500)
      (some "alpha") none
      = .ok ⟨"id1", "alpha", "sp", 10000, some 500, ["m1", "m2"]⟩ :=
  c9_round_trip ⟨[], [], [], [], [], []⟩ "id1" ⟨2024, 1, 1⟩ "sp" "alpha" "m1" "m2"
    (by simp)

/-- C10: when a sponsored allowance name matches no stored allowance,
`max_credits` returns `.ok none` without raising, which is exactly the
result for an existing allowance whose monthly limit is unset — while the
name lookup `get_sponsored_allowance` used by `remaining_credits` and
`log_token_usage` raises KeyError on the same missing name. -/
theorem c10_missing_vs_unset (db db2 : DBState) (user_id : String) (n : String)
    (a : SponsoredAllowance)
    (h : db.sponsored_allowances.filter (fun x => x.name == n) = [])
    (h2 : db2.sponsored_allowances.filter (fun x => x.name == n) = [a])
    (hm : a.monthly_credit_limit = none) :
    max_credits db user_id (some n) none = .ok none
    ∧ get_sponsored_allowance db (some n) none = .error .key_error
    ∧ max_credits db2 user_id (some n) none = .ok none := by
  refine ⟨?_, ?_, ?_⟩
  · simp only [max_credits, h, List.map_nil, scalar_option]
  · simp only [get_sponsored_allowance, Option.isNone_some, Option.isNone_none,
      Bool.false_and, Bool.false_eq_true, if_false]
    simp only [h]
  · simp only [max_credits, h2, List.map_cons, List.map_nil, scalar_option, hm]

/-- C10 witness: name `ghost` is missing from `db_c10` (`.ok none`, KeyError
from the lookup) and present in `db_c10b` with an unset monthly limit
(also `.ok none`). -/
theorem c10_witness :
    max_credits db_c10 "u" (some "ghost") none = .ok none
    ∧ get_sponsored_allowance db_c10 (some "ghost") none = .error .key_error
    ∧ max_credits db_c10b "u" (some "ghost") none = .ok none :=
  c10_missing_vs_unset db_c10 db_c10b "u" "ghost"
    ⟨"a3", ⟨2024, 1, 1⟩, "ghost", "sp", 10, none, []⟩
    (by decide) (by decide) (by decide)
